import Mathlib

/-!
Shallow embedding of the blog application in `src/api/main.py` (Flask +
SQLAlchemy + flask_login).  Database tables become Lean structures, the
database session plus the login session become an explicit `AppState`
record, and each route handler becomes a state-passing function returning
the new state, the flashed messages and the HTTP-level result.
-/

namespace BlogApp

/-- Modelled from the spec: the Credential Service (section 4.1), implemented
in the real program by werkzeug's `generate_password_hash(password,
method='pbkdf2', salt_length=8)`, which is library code outside `src/`.
The random 8-character salt drawn by each call is modelled as an explicit
`salt : Nat` argument (the caller supplies the random draw); the produced
hash string is modelled as the salt (in unary) followed by a separator and
a password-determined digest.  The model is an idealized collision-free
salted hash, matching the spec's description: salted, deterministic format,
fresh salt per call. -/
def generate_password_hash (salt : Nat) (password : String) : String :=
  String.mk (List.replicate salt 's' ++ '$' :: password.data)

/-- Modelled from the spec: the Credential Service's verifier, implemented in
the real program by werkzeug's `check_password_hash(pwhash, password)`.
It recovers the embedded salt/parameters from the hash string (everything
up to the first separator) and checks that the password reproduces the
digest part. -/
def check_password_hash (pwhash : String) (password : String) : Bool :=
  ((pwhash.data.dropWhile (fun c => c != '$')).drop 1) == password.data

theorem dropWhile_replicate_sep (n : Nat) (l : List Char) :
    List.dropWhile (fun c => c != '$') (List.replicate n 's' ++ '$' :: l) = '$' :: l := by
  induction n with
  | zero => simp [List.dropWhile]
  | succ k ih => simp [List.replicate_succ, List.dropWhile, ih]

theorem check_generate_same (salt : Nat) (p : String) :
    check_password_hash (generate_password_hash salt p) p = true := by
  simp [check_password_hash, generate_password_hash, dropWhile_replicate_sep]

theorem check_generate_other (salt : Nat) (p p2 : String) (hne : p2 ≠ p) :
    check_password_hash (generate_password_hash salt p) p2 = false := by
  simp only [check_password_hash, generate_password_hash, dropWhile_replicate_sep,
    List.drop_succ_cons, List.drop_zero, beq_eq_false_iff_ne, ne_eq]
  intro hdata
  exact hne (String.ext hdata.symm)

theorem generate_salt_injective (s1 s2 : Nat) (p : String) (hne : s1 ≠ s2) :
    generate_password_hash s1 p ≠ generate_password_hash s2 p := by
  intro h
  have hdata : List.replicate s1 's' ++ '$' :: p.data
      = List.replicate s2 's' ++ '$' :: p.data := congrArg String.data h
  have hlen := congrArg List.length hdata
  simp [List.length_append, List.length_replicate] at hlen
  exact hne hlen

/-- Row of the `users` table (main.py lines 45-57). -/
structure User where
  id : Nat
  name : String
  email : String
  password : String
  deriving Repr, DecidableEq

/-- Row of the `blog_posts` table (main.py lines 60-75).  `author_id` is the
foreign key into `users`; the schema does not declare it non-nullable, so it
is an `Option`. -/
structure BlogPost where
  id : Nat
  title : String
  subtitle : String
  date : String
  body : String
  img_url : String
  author_id : Option Nat
  deriving Repr, DecidableEq

/-- Row of the `comments` table (main.py lines 78-90).  Both foreign keys
are nullable in the schema, hence `Option`. -/
structure Comment where
  id : Nat
  text : String
  post_id : Option Nat
  author_id : Option Nat
  deriving Repr, DecidableEq

/-- The database tables, the flask_login session (the stored user id, `none`
when logged out), and the primary-key counters the store uses to generate
fresh surrogate ids. -/
structure AppState where
  users : List User
  posts : List BlogPost
  comments : List Comment
  session : Option Nat
  nextUserId : Nat
  nextPostId : Nat
  nextCommentId : Nat
  deriving Repr, DecidableEq

/-- `load_user` (main.py lines 39-41): `User.query.filter_by(id=user_id).first()`. -/
def load_user (st : AppState) (user_id : Nat) : Option User :=
  st.users.find? (fun u => u.id == user_id)

/-- flask_login's `current_user`: resolves the session's stored id through
`load_user`; anonymous (`none`) when there is no session or the id no longer
resolves. -/
def current_user (st : AppState) : Option User :=
  st.session.bind (load_user st)

/-- HTTP-level outcome of a handler. `fault` stands for an uncaught Python
exception (a 500-class failure). -/
inductive HResult where
  | render (template : String)
  | redirectTo (endpoint : String)
  | httpError (code : Nat)
  | fault
  deriving Repr, DecidableEq

/-- What a handler produces: the successor state, the flash messages it
emitted, and its HTTP-level result. -/
structure HandlerOut where
  state : AppState
  flashes : List String
  result : HResult
  deriving Repr, DecidableEq

/-- `RegisterForm` fields (validated by the form layer before the handler
acts; a handler receives `none` for a GET or an invalid submission). -/
structure RegisterForm where
  name : String
  email : String
  password : String
  deriving Repr, DecidableEq

/-- `LoginForm` fields. -/
structure LoginForm where
  email : String
  password : String
  deriving Repr, DecidableEq

/-- `CreatePostForm` fields. -/
structure CreatePostForm where
  title : String
  subtitle : String
  body : String
  img_url : String
  deriving Repr, DecidableEq

/-- `register` (main.py lines 117-140).  On a valid submission it hashes the
password (the fresh random salt drawn by `generate_password_hash` is the
explicit `salt` argument), rejects with a notice and a redirect to login when
the email is already taken, and otherwise inserts the new user, logs it in
(`login_user(new_user)`) and redirects to the post list. -/
def register (st : AppState) (form : Option RegisterForm) (salt : Nat) : HandlerOut :=
  match form with
  | none => ⟨st, [], .render "register.html"⟩
  | some f =>
    let hash_and_salted_password := generate_password_hash salt f.password
    match st.users.find? (fun u => u.email == f.email) with
    | some _ =>
      ⟨st, ["You've already signed up with that email, log in instead!"], .redirectTo "login"⟩
    | none =>
      let new_user : User := ⟨st.nextUserId, f.name, f.email, hash_and_salted_password⟩
      ⟨{ st with users := st.users ++ [new_user],
                 nextUserId := st.nextUserId + 1,
                 session := some new_user.id },
       [], .redirectTo "get_all_posts"⟩

/-- `login` (main.py lines 143-160). -/
def login (st : AppState) (form : Option LoginForm) : HandlerOut :=
  match form with
  | none => ⟨st, [], .render "login.html"⟩
  | some f =>
    match st.users.find? (fun u => u.email == f.email) with
    | some user =>
      if check_password_hash user.password f.password then
        ⟨{ st with session := some user.id }, [], .redirectTo "get_all_posts"⟩
      else
        ⟨st, ["Password incorrect, please try again."], .redirectTo "login"⟩
    | none =>
      ⟨st, ["That email does not exist, please try again."], .redirectTo "login"⟩

/-- `logout` (main.py lines 163-167). -/
def logout (st : AppState) : HandlerOut :=
  ⟨{ st with session := none }, [], .redirectTo "get_all_posts"⟩

/-- Result of the `show_post` handler: either the rendered post page, carrying
the `post` and `all_comments` values passed to the template, a redirect, or an
HTTP error. -/
inductive ShowPostResult where
  | page (post : Option BlogPost) (all_comments : List Comment)
  | redirectTo (endpoint : String)
  | httpError (code : Nat)
  deriving Repr, DecidableEq

/-- Output of `show_post`. -/
structure ShowPostOut where
  state : AppState
  flashes : List String
  result : ShowPostResult
  deriving Repr, DecidableEq

/-- `show_post` (main.py lines 170-190).  The comment form carries one field,
`comment_text`; `form = some text` is a valid POST submission, `none` a GET or
invalid submission.  Note the handler fetches `requested_post` with
`.first()` (so an absent id yields `None`, not an error), fetches
`Comment.query.all()` before any insertion, and on an authenticated valid
submission inserts a comment whose `parent_post` is the possibly-`None`
fetched post, then falls through to the same render. -/
def show_post (st : AppState) (post_id : Nat) (form : Option String) : ShowPostOut :=
  let requested_post := st.posts.find? (fun p => p.id == post_id)
  let all_comments_of_post := st.comments
  match form with
  | some comment_text =>
    match current_user st with
    | none => ⟨st, ["you need to log in to comment!"], .redirectTo "login"⟩
    | some user =>
      let new_comment : Comment :=
        ⟨st.nextCommentId, comment_text, requested_post.map (fun p => p.id), some user.id⟩
      ⟨{ st with comments := st.comments ++ [new_comment],
                 nextCommentId := st.nextCommentId + 1 },
       [], .page requested_post all_comments_of_post⟩
  | none => ⟨st, [], .page requested_post all_comments_of_post⟩

/-- flask_login's `login_required` decorator as configured by this app:
`LoginManager(app)` (main.py line 23) never sets `login_view` (no
`login_manager.login_view = ...` anywhere in the source), so for an
unauthenticated request `LoginManager.unauthorized()` raises HTTP 401
Unauthorized instead of redirecting to a login page. -/
def login_required (func : AppState → HandlerOut) (st : AppState) : HandlerOut :=
  match current_user st with
  | none => ⟨st, [], .httpError 401⟩
  | some _ => func st

/-- `admin_only` (main.py lines 98-106): aborts with 403 unless
`current_user.id == 1`.  On an anonymous user `current_user.id` would raise
(modelled as `fault`); in the app the decorator always runs under
`login_required`, so that branch is unreachable. -/
def admin_only (func : AppState → HandlerOut) (st : AppState) : HandlerOut :=
  match current_user st with
  | none => ⟨st, [], .fault⟩
  | some user =>
    if user.id ≠ 1 then ⟨st, [], .httpError 403⟩
    else func st

/-- Body of `add_new_post` (main.py lines 196-213), inside the decorators.
`today` is `date.today().strftime(...)`. -/
def add_new_post_body (today : String) (form : Option CreatePostForm) (st : AppState) :
    HandlerOut :=
  match form with
  | none => ⟨st, [], .render "make-post.html"⟩
  | some f =>
    match current_user st with
    | none => ⟨st, [], .fault⟩
    | some user =>
      let new_post : BlogPost :=
        ⟨st.nextPostId, f.title, f.subtitle, today, f.body, f.img_url, some user.id⟩
      ⟨{ st with posts := st.posts ++ [new_post], nextPostId := st.nextPostId + 1 },
       [], .redirectTo "get_all_posts"⟩

/-- The `/new-post` route: `login_required` applied over `admin_only` (the
decorator order in main.py lines 193-196). -/
def add_new_post (today : String) (form : Option CreatePostForm) (st : AppState) : HandlerOut :=
  login_required (admin_only (add_new_post_body today form)) st

/-- Body of `edit_post` (main.py lines 219-239), inside the decorators.
`BlogPost.query.get(post_id)` fetches by primary key; an absent id yields
`None` and the immediate `post.title` access raises (`fault`).  Primary keys
are unique, so mutating the fetched row is modelled as updating every post
whose id matches.  The update overwrites title, subtitle, img_url, author
(to the current user) and body, leaving id and date as they were, then
redirects to the post's detail page. -/
def edit_post_body (post_id : Nat) (form : Option CreatePostForm) (st : AppState) :
    HandlerOut :=
  match st.posts.find? (fun p => p.id == post_id) with
  | none => ⟨st, [], .fault⟩
  | some post =>
    match form with
    | none => ⟨st, [], .render "make-post.html"⟩
    | some f =>
      match current_user st with
      | none => ⟨st, [], .fault⟩
      | some user =>
        ⟨{ st with posts := st.posts.map (fun p =>
              if p.id == post_id then
                { p with title := f.title, subtitle := f.subtitle,
                         img_url := f.img_url, author_id := some user.id,
                         body := f.body }
              else p) },
         [], .redirectTo ("show_post/" ++ toString post.id)⟩

/-- The `/edit-post/<post_id>` route with its decorators (main.py lines
216-219). -/
def edit_post (post_id : Nat) (form : Option CreatePostForm) (st : AppState) : HandlerOut :=
  login_required (admin_only (edit_post_body post_id form)) st

/-- Body of `delete_post` (main.py lines 245-251), inside the decorators.
`BlogPost.query.get(post_id)` on an absent id yields `None`, and
`db.session.delete(None)` raises (`fault`).  When the post exists it is
deleted; the `comments` relationship on `BlogPost` declares no delete
cascade, so SQLAlchemy's default behavior on deleting the parent is to null
out the foreign key of its child comments. -/
def delete_post_body (post_id : Nat) (st : AppState) : HandlerOut :=
  match st.posts.find? (fun p => p.id == post_id) with
  | none => ⟨st, [], .fault⟩
  | some _ =>
    ⟨{ st with posts := st.posts.filter (fun p => p.id != post_id),
               comments := st.comments.map (fun c =>
                 if c.post_id == some post_id then { c with post_id := none } else c) },
     [], .redirectTo "get_all_posts"⟩

/-- The `/delete/<post_id>` route with its decorators (main.py lines
242-245). -/
def delete_post (post_id : Nat) (st : AppState) : HandlerOut :=
  login_required (admin_only (delete_post_body post_id)) st

/-- One exposed state-changing request: the mutating routes of the app
(register, login, logout, show-post with an optional comment submission,
create post, edit post, delete post). -/
inductive Op where
  | opRegister (form : Option RegisterForm) (salt : Nat)
  | opLogin (form : Option LoginForm)
  | opLogout
  | opShowPost (post_id : Nat) (form : Option String)
  | opNewPost (today : String) (form : Option CreatePostForm)
  | opEditPost (post_id : Nat) (form : Option CreatePostForm)
  | opDeletePost (post_id : Nat)
  deriving Repr

/-- The state left behind by one request. -/
def applyOp (st : AppState) : Op → AppState
  | .opRegister f salt => (register st f salt).state
  | .opLogin f => (login st f).state
  | .opLogout => (logout st).state
  | .opShowPost pid f => (show_post st pid f).state
  | .opNewPost today f => (add_new_post today f st).state
  | .opEditPost pid f => (edit_post pid f st).state
  | .opDeletePost pid => (delete_post pid st).state

/-- The state of a freshly created database (`db.create_all()` on an empty
store): no rows, nobody logged in, surrogate keys starting at 1. -/
def initState : AppState := ⟨[], [], [], none, 1, 1, 1⟩

/-- Run a sequence of requests. -/
def runOps (st : AppState) : List Op → AppState
  | [] => st
  | op :: ops => runOps (applyOp st op) ops

/-- Referential integrity of the non-null foreign keys: every stored
author/parent-post reference resolves to an existing row. -/
def RefOk (st : AppState) : Prop :=
  (∀ p ∈ st.posts, ∀ i, p.author_id = some i → ∃ u ∈ st.users, u.id = i) ∧
  (∀ c ∈ st.comments, ∀ i, c.author_id = some i → ∃ u ∈ st.users, u.id = i) ∧
  (∀ c ∈ st.comments, ∀ i, c.post_id = some i → ∃ p ∈ st.posts, p.id = i)

/-- No two stored users share an email. -/
def EmailsUnique (st : AppState) : Prop :=
  st.users.Pairwise (fun a b => a.email ≠ b.email)

theorem mem_of_current_user {st : AppState} {u : User} (h : current_user st = some u) :
    u ∈ st.users := by
  unfold current_user at h
  cases hs : st.session with
  | none => rw [hs] at h; exact absurd h (by simp)
  | some sid =>
    rw [hs] at h
    exact List.mem_of_find?_eq_some h

theorem guard_state_cases (body : AppState → HandlerOut) (st : AppState) :
    (login_required (admin_only body) st).state = st ∨
    (login_required (admin_only body) st).state = (body st).state := by
  cases hc : current_user st with
  | none => left; simp [login_required, hc]
  | some u =>
    by_cases hu : u.id = 1
    · right; simp [login_required, admin_only, hc, hu]
    · left; simp [login_required, admin_only, hc, hu]

theorem users_login (st : AppState) (form : Option LoginForm) :
    (login st form).state.users = st.users := by
  cases form with
  | none => rfl
  | some f =>
    cases hf : st.users.find? (fun u => u.email == f.email) with
    | none => simp [login, hf]
    | some user =>
      by_cases hc : check_password_hash user.password f.password = true <;>
        simp [login, hf, hc]

theorem users_show_post (st : AppState) (post_id : Nat) (form : Option String) :
    (show_post st post_id form).state.users = st.users := by
  cases form with
  | none => rfl
  | some text =>
    cases hc : current_user st with
    | none => simp [show_post, hc]
    | some user => simp [show_post, hc]

theorem users_add_new_post_body (today : String) (form : Option CreatePostForm)
    (st : AppState) : (add_new_post_body today form st).state.users = st.users := by
  cases form with
  | none => rfl
  | some f =>
    cases hc : current_user st with
    | none => simp [add_new_post_body, hc]
    | some user => simp [add_new_post_body, hc]

theorem users_edit_post_body (post_id : Nat) (form : Option CreatePostForm)
    (st : AppState) : (edit_post_body post_id form st).state.users = st.users := by
  cases hf : st.posts.find? (fun p => p.id == post_id) with
  | none => simp [edit_post_body, hf]
  | some post =>
    cases form with
    | none => simp [edit_post_body, hf]
    | some f =>
      cases hc : current_user st with
      | none => simp [edit_post_body, hf, hc]
      | some user => simp [edit_post_body, hf, hc]

theorem users_delete_post_body (post_id : Nat) (st : AppState) :
    (delete_post_body post_id st).state.users = st.users := by
  cases hf : st.posts.find? (fun p => p.id == post_id) with
  | none => simp [delete_post_body, hf]
  | some post => simp [delete_post_body, hf]

theorem refOk_register (st : AppState) (form : Option RegisterForm) (salt : Nat)
    (h : RefOk st) : RefOk (register st form salt).state := by
  cases form with
  | none => exact h
  | some f =>
    cases hf : st.users.find? (fun u => u.email == f.email) with
    | some u => simp only [register, hf]; exact h
    | none =>
      simp only [register, hf]
      obtain ⟨h1, h2, h3⟩ := h
      refine ⟨?_, ?_, ?_⟩
      · intro p hp i hi
        obtain ⟨u, hu, hid⟩ := h1 p hp i hi
        exact ⟨u, List.mem_append_left _ hu, hid⟩
      · intro c hc i hi
        obtain ⟨u, hu, hid⟩ := h2 c hc i hi
        exact ⟨u, List.mem_append_left _ hu, hid⟩
      · exact h3

theorem refOk_login (st : AppState) (form : Option LoginForm) (h : RefOk st) :
    RefOk (login st form).state := by
  cases form with
  | none => exact h
  | some f =>
    cases hf : st.users.find? (fun u => u.email == f.email) with
    | none => simp only [login, hf]; exact h
    | some user =>
      by_cases hc : check_password_hash user.password f.password = true
      · simp only [login, hf, hc, if_pos]; exact h
      · simp only [login, hf, if_neg hc]
        exact h

theorem refOk_logout (st : AppState) (h : RefOk st) : RefOk (logout st).state := h

theorem refOk_show_post (st : AppState) (post_id : Nat) (form : Option String)
    (h : RefOk st) : RefOk (show_post st post_id form).state := by
  cases form with
  | none => exact h
  | some text =>
    cases hc : current_user st with
    | none => simp only [show_post, hc]; exact h
    | some user =>
      have huser : user ∈ st.users := mem_of_current_user hc
      simp only [show_post, hc]
      obtain ⟨h1, h2, h3⟩ := h
      refine ⟨h1, ?_, ?_⟩
      · intro c hcm i hi
        rcases List.mem_append.mp hcm with hold | hnew
        · exact h2 c hold i hi
        · have hceq : c = ⟨st.nextCommentId, text,
              (st.posts.find? (fun p => p.id == post_id)).map (fun p => p.id),
              some user.id⟩ := List.mem_singleton.mp hnew
          subst hceq
          exact ⟨user, huser, Option.some_injective _ hi⟩
      · intro c hcm i hi
        rcases List.mem_append.mp hcm with hold | hnew
        · exact h3 c hold i hi
        · have hceq : c = ⟨st.nextCommentId, text,
              (st.posts.find? (fun p => p.id == post_id)).map (fun p => p.id),
              some user.id⟩ := List.mem_singleton.mp hnew
          subst hceq
          cases hfind : st.posts.find? (fun p => p.id == post_id) with
          | none => rw [hfind] at hi; exact absurd hi (by simp)
          | some post =>
            rw [hfind] at hi
            have hpmem : post ∈ st.posts := List.mem_of_find?_eq_some hfind
            have hpid : post.id = i := Option.some_injective _ hi
            exact ⟨post, hpmem, hpid⟩

theorem refOk_add_new_post_body (today : String) (form : Option CreatePostForm)
    (st : AppState) (h : RefOk st) : RefOk (add_new_post_body today form st).state := by
  cases form with
  | none => exact h
  | some f =>
    cases hc : current_user st with
    | none => simp only [add_new_post_body, hc]; exact h
    | some user =>
      have huser : user ∈ st.users := mem_of_current_user hc
      simp only [add_new_post_body, hc]
      obtain ⟨h1, h2, h3⟩ := h
      refine ⟨?_, h2, ?_⟩
      · intro p hp i hi
        rcases List.mem_append.mp hp with hold | hnew
        · exact h1 p hold i hi
        · have hpeq : p = ⟨st.nextPostId, f.title, f.subtitle, today, f.body,
              f.img_url, some user.id⟩ := List.mem_singleton.mp hnew
          subst hpeq
          exact ⟨user, huser, Option.some_injective _ hi⟩
      · intro c hcm i hi
        obtain ⟨p, hp, hid⟩ := h3 c hcm i hi
        exact ⟨p, List.mem_append_left _ hp, hid⟩

theorem refOk_edit_post_body (post_id : Nat) (form : Option CreatePostForm)
    (st : AppState) (h : RefOk st) : RefOk (edit_post_body post_id form st).state := by
  cases hfind : st.posts.find? (fun p => p.id == post_id) with
  | none => simp only [edit_post_body, hfind]; exact h
  | some post =>
    cases form with
    | none => simp only [edit_post_body, hfind]; exact h
    | some f =>
      cases hc : current_user st with
      | none => simp only [edit_post_body, hfind, hc]; exact h
      | some user =>
        have huser : user ∈ st.users := mem_of_current_user hc
        simp only [edit_post_body, hfind, hc]
        obtain ⟨h1, h2, h3⟩ := h
        refine ⟨?_, h2, ?_⟩
        · intro p hp i hi
          obtain ⟨q, hq, hqe⟩ := List.mem_map.mp hp
          by_cases hqid : (q.id == post_id) = true
          · rw [if_pos hqid] at hqe
            subst hqe
            exact ⟨user, huser, Option.some_injective _ hi⟩
          · rw [if_neg hqid] at hqe
            subst hqe
            exact h1 q hq i hi
        · intro c hcm i hi
          obtain ⟨p, hp, hid⟩ := h3 c hcm i hi
          refine ⟨if (p.id == post_id) = true then
              { p with title := f.title, subtitle := f.subtitle,
                       img_url := f.img_url, author_id := some user.id,
                       body := f.body } else p, List.mem_map_of_mem _ hp, ?_⟩
          by_cases hpid : (p.id == post_id) = true
          · rw [if_pos hpid]; exact hid
          · rw [if_neg hpid]; exact hid

theorem refOk_delete_post_body (post_id : Nat) (st : AppState) (h : RefOk st) :
    RefOk (delete_post_body post_id st).state := by
  cases hfind : st.posts.find? (fun p => p.id == post_id) with
  | none => simp only [delete_post_body, hfind]; exact h
  | some post =>
    simp only [delete_post_body, hfind]
    obtain ⟨h1, h2, h3⟩ := h
    refine ⟨?_, ?_, ?_⟩
    · intro p hp i hi
      exact h1 p (List.mem_of_mem_filter hp) i hi
    · intro c hcm i hi
      obtain ⟨d, hd, hde⟩ := List.mem_map.mp hcm
      by_cases hdp : (d.post_id == some post_id) = true
      · rw [if_pos hdp] at hde
        subst hde
        exact h2 d hd i hi
      · rw [if_neg hdp] at hde
        subst hde
        exact h2 d hd i hi
    · intro c hcm i hi
      obtain ⟨d, hd, hde⟩ := List.mem_map.mp hcm
      by_cases hdp : (d.post_id == some post_id) = true
      · rw [if_pos hdp] at hde
        subst hde
        exact absurd hi (by simp)
      · rw [if_neg hdp] at hde
        subst hde
        obtain ⟨p, hp, hid⟩ := h3 d hd i hi
        refine ⟨p, List.mem_filter.mpr ⟨hp, ?_⟩, hid⟩
        have hine : i ≠ post_id := by
          intro hcontra
          apply hdp
          rw [hi, hcontra]
          exact beq_self_eq_true _
        subst hid
        simpa [bne] using hine

theorem refOk_applyOp (st : AppState) (op : Op) (h : RefOk st) :
    RefOk (applyOp st op) := by
  cases op with
  | opRegister f salt => exact refOk_register st f salt h
  | opLogin f => exact refOk_login st f h
  | opLogout => exact refOk_logout st h
  | opShowPost pid f => exact refOk_show_post st pid f h
  | opNewPost today f =>
    show RefOk (add_new_post today f st).state
    rcases guard_state_cases (add_new_post_body today f) st with hs | hs
    · unfold add_new_post; rw [hs]; exact h
    · unfold add_new_post; rw [hs]; exact refOk_add_new_post_body today f st h
  | opEditPost pid f =>
    show RefOk (edit_post pid f st).state
    rcases guard_state_cases (edit_post_body pid f) st with hs | hs
    · unfold edit_post; rw [hs]; exact h
    · unfold edit_post; rw [hs]; exact refOk_edit_post_body pid f st h
  | opDeletePost pid =>
    show RefOk (delete_post pid st).state
    rcases guard_state_cases (delete_post_body pid) st with hs | hs
    · unfold delete_post; rw [hs]; exact h
    · unfold delete_post; rw [hs]; exact refOk_delete_post_body pid st h

theorem refOk_runOps (ops : List Op) (st : AppState) (h : RefOk st) :
    RefOk (runOps st ops) := by
  induction ops generalizing st with
  | nil => exact h
  | cons op ops ih => exact ih (applyOp st op) (refOk_applyOp st op h)

theorem refOk_initState : RefOk initState := by
  refine ⟨?_, ?_, ?_⟩ <;> intro x hx <;> exact absurd hx (by simp [initState])

theorem emailsUnique_of_users_eq {s1 s2 : AppState} (hu : s2.users = s1.users)
    (h : EmailsUnique s1) : EmailsUnique s2 := by
  unfold EmailsUnique at *
  rw [hu]
  exact h

theorem emailsUnique_register (st : AppState) (form : Option RegisterForm) (salt : Nat)
    (h : EmailsUnique st) : EmailsUnique (register st form salt).state := by
  cases form with
  | none => exact h
  | some f =>
    cases hf : st.users.find? (fun u => u.email == f.email) with
    | some u => simp only [register, hf]; exact h
    | none =>
      simp only [register, hf]
      unfold EmailsUnique at *
      rw [List.pairwise_append]
      refine ⟨h, List.pairwise_singleton _ _, ?_⟩
      intro a ha b hb
      have hbe : b = (⟨st.nextUserId, f.name, f.email,
          generate_password_hash salt f.password⟩ : User) := List.mem_singleton.mp hb
      subst hbe
      have hnone := List.find?_eq_none.mp hf a ha
      simpa using hnone

theorem emailsUnique_applyOp (st : AppState) (op : Op) (h : EmailsUnique st) :
    EmailsUnique (applyOp st op) := by
  cases op with
  | opRegister f salt => exact emailsUnique_register st f salt h
  | opLogin f => exact emailsUnique_of_users_eq (users_login st f) h
  | opLogout => exact h
  | opShowPost pid f => exact emailsUnique_of_users_eq (users_show_post st pid f) h
  | opNewPost today f =>
    show EmailsUnique (add_new_post today f st).state
    rcases guard_state_cases (add_new_post_body today f) st with hs | hs
    · unfold add_new_post; rw [hs]; exact h
    · unfold add_new_post; rw [hs]
      exact emailsUnique_of_users_eq (users_add_new_post_body today f st) h
  | opEditPost pid f =>
    show EmailsUnique (edit_post pid f st).state
    rcases guard_state_cases (edit_post_body pid f) st with hs | hs
    · unfold edit_post; rw [hs]; exact h
    · unfold edit_post; rw [hs]
      exact emailsUnique_of_users_eq (users_edit_post_body pid f st) h
  | opDeletePost pid =>
    show EmailsUnique (delete_post pid st).state
    rcases guard_state_cases (delete_post_body pid) st with hs | hs
    · unfold delete_post; rw [hs]; exact h
    · unfold delete_post; rw [hs]
      exact emailsUnique_of_users_eq (users_delete_post_body pid st) h

theorem emailsUnique_runOps (ops : List Op) (st : AppState) (h : EmailsUnique st) :
    EmailsUnique (runOps st ops) := by
  induction ops generalizing st with
  | nil => exact h
  | cons op ops ih => exact ih (applyOp st op) (emailsUnique_applyOp st op h)

end BlogApp

/-- C2: for every password p, verify(hash(p), p) is true; for every p2 ≠ p,
verify(hash(p), p2) is false; and two calls of hash on the same password with
distinct fresh salts produce different hash strings. -/
theorem C2_password_hashing (salt : Nat) (p : String) :
    BlogApp.check_password_hash (BlogApp.generate_password_hash salt p) p = true ∧
    (∀ p2 : String, p2 ≠ p →
      BlogApp.check_password_hash (BlogApp.generate_password_hash salt p) p2 = false) ∧
    (∀ salt2 : Nat, salt ≠ salt2 →
      BlogApp.generate_password_hash salt p ≠ BlogApp.generate_password_hash salt2 p) :=
  ⟨BlogApp.check_generate_same salt p,
   fun p2 h => BlogApp.check_generate_other salt p p2 h,
   fun salt2 h => BlogApp.generate_salt_injective salt salt2 p h⟩

/-- C2 witness: the three properties at concrete inputs. -/
theorem C2_password_hashing_witness :
    BlogApp.check_password_hash (BlogApp.generate_password_hash 3 "pw123") "pw123" = true ∧
    BlogApp.check_password_hash (BlogApp.generate_password_hash 3 "pw123") "pw124" = false ∧
    BlogApp.generate_password_hash 3 "pw123" ≠ BlogApp.generate_password_hash 5 "pw123" :=
  ⟨(C2_password_hashing 3 "pw123").1,
   (C2_password_hashing 3 "pw123").2.1 "pw124" (by decide),
   (C2_password_hashing 3 "pw123").2.2 5 (by decide)⟩

/-- C1 counterexample: an anonymous (logged-out) request to the create-post
route receives HTTP 401 Unauthorized — not a redirect to the login handler as
the claim states — because `LoginManager(app)` is created without a
`login_view`. -/
theorem C1_counterexample :
    (BlogApp.add_new_post "May 01, 2025" none BlogApp.initState).result =
      BlogApp.HResult.httpError 401 ∧
    (BlogApp.add_new_post "May 01, 2025" none BlogApp.initState).result ≠
      BlogApp.HResult.redirectTo "login" :=
  ⟨rfl, by decide⟩

/-- C1 (amended): for every request to a guarded route (create/edit/delete
post): an anonymous requester receives HTTP 401 Unauthorized (no login view
is configured, so flask_login aborts instead of redirecting); an
authenticated requester with id ≠ 1 receives HTTP 403 and the wrapped
handler never executes; only the authenticated identity with id 1 reaches
the wrapped handler. -/
theorem C1_admin_gate (hdl : BlogApp.AppState → BlogApp.HandlerOut)
    (st : BlogApp.AppState) :
    (BlogApp.current_user st = none →
      BlogApp.login_required (BlogApp.admin_only hdl) st =
        ⟨st, [], .httpError 401⟩) ∧
    (∀ u : BlogApp.User, BlogApp.current_user st = some u → u.id ≠ 1 →
      BlogApp.login_required (BlogApp.admin_only hdl) st =
        ⟨st, [], .httpError 403⟩) ∧
    (∀ u : BlogApp.User, BlogApp.current_user st = some u → u.id = 1 →
      BlogApp.login_required (BlogApp.admin_only hdl) st = hdl st) := by
  refine ⟨?_, ?_, ?_⟩
  · intro hc
    simp [BlogApp.login_required, hc]
  · intro u hc hne
    simp [BlogApp.login_required, BlogApp.admin_only, hc, hne]
  · intro u hc he
    simp [BlogApp.login_required, BlogApp.admin_only, hc, he]

/-- C1 witness: the three gate outcomes at concrete states, with the real
create-post handler body wrapped. -/
theorem C1_admin_gate_witness :
    BlogApp.login_required (BlogApp.admin_only (BlogApp.add_new_post_body "May 01, 2025" none))
        BlogApp.initState = ⟨BlogApp.initState, [], .httpError 401⟩ ∧
    BlogApp.login_required (BlogApp.admin_only (BlogApp.add_new_post_body "May 01, 2025" none))
        ⟨[⟨2, "Bob", "bob@mail", "h"⟩], [], [], some 2, 3, 1, 1⟩ =
      ⟨⟨[⟨2, "Bob", "bob@mail", "h"⟩], [], [], some 2, 3, 1, 1⟩, [], .httpError 403⟩ ∧
    BlogApp.login_required (BlogApp.admin_only (BlogApp.add_new_post_body "May 01, 2025" none))
        ⟨[⟨1, "Admin", "admin@mail", "h"⟩], [], [], some 1, 2, 1, 1⟩ =
      BlogApp.add_new_post_body "May 01, 2025" none
        ⟨[⟨1, "Admin", "admin@mail", "h"⟩], [], [], some 1, 2, 1, 1⟩ :=
  ⟨(C1_admin_gate _ BlogApp.initState).1 rfl,
   (C1_admin_gate _ _).2.1 ⟨2, "Bob", "bob@mail", "h"⟩ rfl (by decide),
   (C1_admin_gate _ _).2.2 ⟨1, "Admin", "admin@mail", "h"⟩ rfl rfl⟩

/-- C3: a valid registration with an email that already belongs to a stored
user changes nothing, flashes the duplicate-email notice and redirects to
login; consequently no reachable state has two users sharing an email. -/
theorem C3_register_duplicate_email :
    (∀ (st : BlogApp.AppState) (f : BlogApp.RegisterForm) (salt : Nat),
      (∃ u ∈ st.users, u.email = f.email) →
      BlogApp.register st (some f) salt =
        ⟨st, ["You've already signed up with that email, log in instead!"],
         .redirectTo "login"⟩) ∧
    (∀ ops : List BlogApp.Op, BlogApp.EmailsUnique (BlogApp.runOps BlogApp.initState ops)) := by
  constructor
  · intro st f salt hex
    cases hf : st.users.find? (fun u => u.email == f.email) with
    | none =>
      obtain ⟨u, hu, he⟩ := hex
      have hne := List.find?_eq_none.mp hf u hu
      simp [he] at hne
    | some v => simp [BlogApp.register, hf]
  · intro ops
    exact BlogApp.emailsUnique_runOps ops BlogApp.initState List.Pairwise.nil

/-- C3 witness: a concrete duplicate registration is rejected unchanged, and
email uniqueness holds after a concrete run. -/
theorem C3_register_duplicate_email_witness :
    BlogApp.register ⟨[⟨1, "Alice", "alice@mail", "h"⟩], [], [], none, 2, 1, 1⟩
        (some ⟨"Bob", "alice@mail", "pw"⟩) 0 =
      ⟨⟨[⟨1, "Alice", "alice@mail", "h"⟩], [], [], none, 2, 1, 1⟩,
       ["You've already signed up with that email, log in instead!"],
       .redirectTo "login"⟩ ∧
    BlogApp.EmailsUnique (BlogApp.runOps BlogApp.initState
      [BlogApp.Op.opRegister (some ⟨"Alice", "alice@mail", "pw"⟩) 0]) :=
  ⟨C3_register_duplicate_email.1 _ _ 0 ⟨⟨1, "Alice", "alice@mail", "h"⟩, by decide, rfl⟩,
   C3_register_duplicate_email.2 _⟩

/-- C4: at a post id absent from the store, `show_post` does NOT fail with a
Not-Found result; it fetches `None` and renders the page with no post (the
claim, following the spec's recommended behavior, says it must fail with
Not-Found). -/
theorem C4_show_post_absent_not_404 :
    BlogApp.show_post BlogApp.initState 1 none =
      ⟨BlogApp.initState, [], .page none []⟩ ∧
    (BlogApp.show_post BlogApp.initState 1 none).result ≠
      BlogApp.ShowPostResult.httpError 404 :=
  ⟨rfl, by decide⟩

/-- C5: a comment submission while logged out flashes the login notice,
redirects to the login handler, and leaves the whole stored state (hence the
comment table) unchanged. -/
theorem C5_comment_logged_out (st : BlogApp.AppState) (post_id : Nat) (text : String)
    (hanon : BlogApp.current_user st = none) :
    BlogApp.show_post st post_id (some text) =
      ⟨st, ["you need to log in to comment!"], .redirectTo "login"⟩ := by
  simp [BlogApp.show_post, hanon]

/-- C5 witness: concrete logged-out comment submission. -/
theorem C5_comment_logged_out_witness :
    BlogApp.show_post BlogApp.initState 1 (some "hi") =
      ⟨BlogApp.initState, ["you need to log in to comment!"], .redirectTo "login"⟩ :=
  C5_comment_logged_out BlogApp.initState 1 "hi" rfl

/-- C6: the three outcomes of a valid login submission: unknown email
flashes the email notice and redirects back to login; known email with a
non-verifying password flashes the password notice and redirects back to
login; a verifying password establishes the session for that user and
redirects to the post list. -/
theorem C6_login_outcomes (st : BlogApp.AppState) (f : BlogApp.LoginForm) :
    ((∀ u ∈ st.users, u.email ≠ f.email) →
      BlogApp.login st (some f) =
        ⟨st, ["That email does not exist, please try again."], .redirectTo "login"⟩) ∧
    (∀ u : BlogApp.User, st.users.find? (fun v => v.email == f.email) = some u →
      BlogApp.check_password_hash u.password f.password = false →
      BlogApp.login st (some f) =
        ⟨st, ["Password incorrect, please try again."], .redirectTo "login"⟩) ∧
    (∀ u : BlogApp.User, st.users.find? (fun v => v.email == f.email) = some u →
      BlogApp.check_password_hash u.password f.password = true →
      BlogApp.login st (some f) =
        ⟨{ st with session := some u.id }, [], .redirectTo "get_all_posts"⟩) := by
  refine ⟨?_, ?_, ?_⟩
  · intro hno
    have hf : st.users.find? (fun v => v.email == f.email) = none :=
      List.find?_eq_none.mpr (fun u hu => by simpa using hno u hu)
    simp [BlogApp.login, hf]
  · intro u hf hbad
    simp [BlogApp.login, hf, hbad]
  · intro u hf hok
    simp [BlogApp.login, hf, hok]

/-- C6 witness: the three login outcomes at concrete stores. -/
theorem C6_login_outcomes_witness :
    BlogApp.login BlogApp.initState (some ⟨"nobody@mail", "pw"⟩) =
      ⟨BlogApp.initState, ["That email does not exist, please try again."],
       .redirectTo "login"⟩ ∧
    BlogApp.login
        ⟨[⟨1, "Alice", "alice@mail", BlogApp.generate_password_hash 2 "pw"⟩],
         [], [], none, 2, 1, 1⟩ (some ⟨"alice@mail", "bad"⟩) =
      ⟨⟨[⟨1, "Alice", "alice@mail", BlogApp.generate_password_hash 2 "pw"⟩],
        [], [], none, 2, 1, 1⟩,
       ["Password incorrect, please try again."], .redirectTo "login"⟩ ∧
    BlogApp.login
        ⟨[⟨1, "Alice", "alice@mail", BlogApp.generate_password_hash 2 "pw"⟩],
         [], [], none, 2, 1, 1⟩ (some ⟨"alice@mail", "pw"⟩) =
      ⟨⟨[⟨1, "Alice", "alice@mail", BlogApp.generate_password_hash 2 "pw"⟩],
        [], [], some 1, 2, 1, 1⟩, [], .redirectTo "get_all_posts"⟩ :=
  ⟨(C6_login_outcomes BlogApp.initState ⟨"nobody@mail", "pw"⟩).1 (by decide),
   (C6_login_outcomes _ _).2.1
     ⟨1, "Alice", "alice@mail", BlogApp.generate_password_hash 2 "pw"⟩
     (by decide) (by decide),
   (C6_login_outcomes _ _).2.2
     ⟨1, "Alice", "alice@mail", BlogApp.generate_password_hash 2 "pw"⟩
     (by decide) (by decide)⟩

/-- C7: whenever `show_post` renders the post page, the comment list handed
to the template is the full stored comment table (as fetched at the start of
the request), never filtered to the requested post's id. -/
theorem C7_comments_unfiltered (st : BlogApp.AppState) (post_id : Nat)
    (form : Option String) :
    (BlogApp.show_post st post_id form).result = BlogApp.ShowPostResult.redirectTo "login" ∨
    (BlogApp.show_post st post_id form).result =
      BlogApp.ShowPostResult.page (st.posts.find? (fun p => p.id == post_id)) st.comments := by
  cases form with
  | none => right; rfl
  | some text =>
    cases hc : BlogApp.current_user st with
    | none => left; simp [BlogApp.show_post, hc]
    | some user => right; simp [BlogApp.show_post, hc]

/-- C8: a valid admin edit of an existing post overwrites exactly title,
subtitle, image URL, body and author (the author becomes the logged-in
identity), keeps id and date, leaves every other table and the session
untouched, and redirects to the post's detail page. -/
theorem C8_edit_post_frame (st : BlogApp.AppState) (post_id : Nat)
    (f : BlogApp.CreatePostForm) (u : BlogApp.User) (post : BlogApp.BlogPost)
    (hcu : BlogApp.current_user st = some u) (hadmin : u.id = 1)
    (hfind : st.posts.find? (fun p => p.id == post_id) = some post) :
    BlogApp.edit_post post_id (some f) st =
      ⟨{ st with posts := st.posts.map (fun p =>
            if p.id == post_id then
              { id := p.id, title := f.title, subtitle := f.subtitle, date := p.date,
                body := f.body, img_url := f.img_url, author_id := some u.id }
            else p) },
       [], .redirectTo ("show_post/" ++ toString post_id)⟩ := by
  have hpid : post.id = post_id := by
    have hp := List.find?_some hfind
    simpa using hp
  simp [BlogApp.edit_post, BlogApp.login_required, BlogApp.admin_only, hcu, hadmin,
    BlogApp.edit_post_body, hfind, hpid]

/-- C8 witness: a concrete admin edit of an existing post. -/
theorem C8_edit_post_frame_witness :
    BlogApp.edit_post 1 (some ⟨"T2", "S2", "B2", "I2"⟩)
        ⟨[⟨1, "Admin", "admin@mail", "h"⟩],
         [⟨1, "T", "S", "May 01, 2025", "B", "I", some 1⟩], [], some 1, 2, 2, 1⟩ =
      ⟨⟨[⟨1, "Admin", "admin@mail", "h"⟩],
        [⟨1, "T2", "S2", "May 01, 2025", "B2", "I2", some 1⟩], [], some 1, 2, 2, 1⟩,
       [], .redirectTo ("show_post/" ++ toString 1)⟩ :=
  C8_edit_post_frame _ 1 ⟨"T2", "S2", "B2", "I2"⟩ ⟨1, "Admin", "admin@mail", "h"⟩
    ⟨1, "T", "S", "May 01, 2025", "B", "I", some 1⟩ rfl rfl rfl

/-- C9 counterexample: a reachable state (register a user, then submit a
comment at the absent post id 1) contains a comment whose parent-post
reference points to no existing post (it is null), refuting the claim that
every comment's parent-post reference points to an existing post. -/
theorem C9_counterexample :
    ¬ (∀ c ∈ (BlogApp.runOps BlogApp.initState
        [BlogApp.Op.opRegister (some ⟨"Alice", "alice@mail", "pw"⟩) 0,
         BlogApp.Op.opShowPost 1 (some "hello")]).comments,
        ∃ p ∈ (BlogApp.runOps BlogApp.initState
        [BlogApp.Op.opRegister (some ⟨"Alice", "alice@mail", "pw"⟩) 0,
         BlogApp.Op.opShowPost 1 (some "hello")]).posts, c.post_id = some p.id) := by
  decide

/-- C9 (amended): in every state reachable by the exposed operations, every
NON-NULL author or parent-post reference resolves to a stored User/Post; a
comment's parent-post reference can be null (comment submitted at an absent
post id, or parent post later deleted), in which case it references
nothing. -/
theorem C9_referential_integrity (ops : List BlogApp.Op) :
    BlogApp.RefOk (BlogApp.runOps BlogApp.initState ops) :=
  BlogApp.refOk_runOps ops BlogApp.initState BlogApp.refOk_initState

/-- C10: an authenticated valid comment submission at an absent post id does
not fail: it persists a comment whose parent-post reference is null and
renders the page with no post. -/
theorem C10_comment_absent_post (st : BlogApp.AppState) (post_id : Nat) (text : String)
    (u : BlogApp.User) (hcu : BlogApp.current_user st = some u)
    (habsent : st.posts.find? (fun p => p.id == post_id) = none) :
    BlogApp.show_post st post_id (some text) =
      ⟨{ st with comments := st.comments ++ [⟨st.nextCommentId, text, none, some u.id⟩],
                 nextCommentId := st.nextCommentId + 1 },
       [], .page none st.comments⟩ := by
  simp [BlogApp.show_post, hcu, habsent]

/-- C10 witness: a concrete authenticated comment at an absent post id. -/
theorem C10_comment_absent_post_witness :
    BlogApp.show_post ⟨[⟨1, "Alice", "alice@mail", "h"⟩], [], [], some 1, 2, 1, 1⟩
        7 (some "hi") =
      ⟨⟨[⟨1, "Alice", "alice@mail", "h"⟩], [], [⟨1, "hi", none, some 1⟩], some 1, 2, 1, 2⟩,
       [], .page none []⟩ :=
  C10_comment_absent_post _ 7 "hi" ⟨1, "Alice", "alice@mail", "h"⟩ rfl rfl
